import Mathlib

/-!
Shallow embedding of the http-echo server (src/main.go).

Modelling conventions:
  - Go byte slices written to a response are modelled as `String`; the byte
    count `len(b)` of such a slice is the UTF-8 size `String.utf8ByteSize`.
  - Go `http.ResponseWriter` is an interface; we model an interface value as a
    dictionary of the three operations over an abstract writer state `σ`,
    with an abstract error type `ε` for the `error` component of `Write`.
    Each Go method on a pointer receiver becomes a pure state-passing
    function.
  - `os.LookupEnv` is modelled as a function `String → Option String`
    supplied at request time.
  - A Go handler `func(w, r)` becomes a function from the writer dictionary,
    the writer state and the request to `Option` of the final writer state;
    `none` models a panic.
  - Wall-clock formatting (`time.Format`, `time.Duration`'s printing) is
    external Go library behaviour; it is abstracted as function parameters
    `fmtTime`/`showDur`, and timestamps are integers.
-/

/-- Go `http.Header` is `map[string][]string`. -/
def HeaderMap : Type := List (String × List String)

/-- The per-request data read by the handlers and the logger:
`r.Host`, `r.RemoteAddr`, `r.Method`, `r.URL.Path`, `r.Proto`,
`r.UserAgent()`. -/
structure Request where
  host : String
  remoteAddr : String
  method : String
  path : String
  proto : String
  userAgent : String

/-- The process environment as seen by `os.LookupEnv`. -/
def Env : Type := String → Option String

/-- Dictionary for the Go `http.ResponseWriter` interface over a writer
state `σ` and error type `ε`.  `write` returns the new state together with
the Go `(int, error)` result; `header` returns the header map and the
(possibly updated) state. -/
structure ResponseWriter (σ ε : Type) where
  header : σ → HeaderMap × σ
  write : σ → String → σ × Nat × Option ε
  writeHeader : σ → Nat → σ

/-- State of `metaResponseWriter`: the underlying writer plus the recorded
status and length (Go zero values are 0). -/
structure MetaState (σ : Type) where
  writer : σ
  status : Nat
  length : Nat

/-- Method `(*metaResponseWriter).Header`: returns `w.writer.Header()`;
the recorded fields are untouched. -/
def metaHeader (rw : ResponseWriter σ ε) (w : MetaState σ) :
    HeaderMap × MetaState σ :=
  let res := rw.header w.writer
  (res.1, { writer := res.2, status := w.status, length := w.length })

/-- Method `(*metaResponseWriter).WriteHeader`: records the status, then
forwards it to the underlying writer. -/
def metaWriteHeader (rw : ResponseWriter σ ε) (w : MetaState σ) (s : Nat) :
    MetaState σ :=
  { writer := rw.writeHeader w.writer s, status := s, length := w.length }

/-- Method `(*metaResponseWriter).Write`: if no status was recorded
(`w.status == 0`) records `http.StatusOK` (200); records `len(b)` as the
length; forwards `b` to the underlying writer and returns its result. -/
def metaWrite (rw : ResponseWriter σ ε) (w : MetaState σ) (b : String) :
    MetaState σ × Nat × Option ε :=
  let st := if w.status = 0 then 200 else w.status
  let res := rw.write w.writer b
  ({ writer := res.1, status := st, length := b.utf8ByteSize }, res.2)

/-- The `metaResponseWriter` itself implements `http.ResponseWriter`. -/
def metaRW (rw : ResponseWriter σ ε) : ResponseWriter (MetaState σ) ε :=
  { header := metaHeader rw
    write := metaWrite rw
    writeHeader := metaWriteHeader rw }

/-- A Go `http.HandlerFunc`, with the interface dictionary made explicit;
`none` models a panic escaping the handler. -/
abbrev Handler (σ ε : Type) : Type :=
  ResponseWriter σ ε → σ → Request → Option σ

/-- Go `fmt.Fprintln(w, v)`: a single `w.Write` of `v` followed by a
newline, returning the `(int, error)` result. -/
def fprintln (rw : ResponseWriter σ ε) (w : σ) (v : String) :
    σ × Nat × Option ε :=
  rw.write w (v ++ "\n")

/-- Function `httpEcho(v, kind)`: on `"text"` prints the value; on `"env"`
looks the value up in the environment at request time, printing either the
resolved value or a failure message embedding the variable name; any other
kind panics (`none`). -/
def httpEcho (v kind : String) (env : Env) : Handler σ ε :=
  fun rw w _r =>
    if kind = "text" then
      some (fprintln rw w v).1
    else if kind = "env" then
      match env v with
      | some resolvedV => some (fprintln rw w resolvedV).1
      | none =>
        some (fprintln rw w ("failed resolving env var \x27" ++ v ++ "\x27")).1
    else
      none

/-- Function `httpHealth()`: prints the fixed JSON liveness payload
(written here with `\x7b`/`\x7d` escapes for the braces). -/
def httpHealth : Handler σ ε :=
  fun rw w _r => some (fprintln rw w "\x7b\"status\":\"ok\"\x7d").1

/-- Function `withAppHeaders(h)`: a pass-through wrapper that just calls
`h(w, r)`. -/
def withAppHeaders (h : Handler σ ε) : Handler σ ε :=
  fun rw w r => h rw w r

/-- Constant `httpLogDateFormat` from the source. -/
def httpLogDateFormat : String := "2006/01/02 15:04:05"

/-- Constant `httpLogFormat` from the source (braces are absent; the quotes
are escaped as in Go). -/
def httpLogFormat : String := "%v %s %s \"%s %s %s\" %d %d \"%s\" %v\n"

/-- The single `fmt.Fprintf(out, httpLogFormat, ...)` line emitted by
`httpLog`, with the arguments `end.Format(httpLogDateFormat)`, `r.Host`,
`r.RemoteAddr`, `r.Method`, `r.URL.Path`, `r.Proto`, `status`, `length`,
`r.UserAgent()`, `dur` substituted into the format string. -/
def renderLogLine (fmtTime showDur : Int → String) (endT : Int) (r : Request)
    (status length : Nat) (dur : Int) : String :=
  fmtTime endT ++ " " ++ r.host ++ " " ++ r.remoteAddr ++ " \"" ++ r.method
    ++ " " ++ r.path ++ " " ++ r.proto ++ "\" " ++ toString status ++ " "
    ++ toString length ++ " \"" ++ r.userAgent ++ "\" " ++ showDur dur ++ "\n"

/-- Function `httpLog(out, h)`: builds a fresh `metaResponseWriter` over the
real writer, invokes the inner handler on it, and (via `defer`) emits
exactly one formatted line to the sink once the handler completes, using
the recorded status and length and the duration `end − start`.  The list of
strings returned is the sequence of writes made to the log sink `out`; the
deferred write also runs when the handler panics (`none`), in which case the
recorder still holds its zero values because the only panic in this
program happens before any write. -/
def httpLog (fmtTime showDur : Int → String) (rw : ResponseWriter σ ε)
    (h : Handler (MetaState σ) ε) (startT endT : Int) (w : σ) (r : Request) :
    Option σ × List String :=
  let mrw0 : MetaState σ := { writer := w, status := 0, length := 0 }
  match h (metaRW rw) mrw0 r with
  | some mrw =>
      (some mrw.writer,
        [renderLogLine fmtTime showDur endT r mrw.status mrw.length
          (endT - startT)])
  | none =>
      (none,
        [renderLogLine fmtTime showDur endT r 0 0 (endT - startT)])

/-- The flag values and positional arguments available to `main` after
`flag.Parse()`. -/
structure Flags where
  textFlag : String
  envFlag : String
  args : List String

/-- Outcome of `main`'s startup section: either `os.Exit(code)` after a
message to stderr, or a server configured with `finalFlag`/`finalKind`. -/
inductive StartupResult where
  | exitError (code : Nat) (msg : String)
  | configured (value : String) (kind : String)
deriving DecidableEq

/-- The validation and configuration logic at the top of `main`: exits 127
if both flags are empty, exits 127 on extra positional arguments, and
otherwise picks the text flag (kind `text`) when it is non-empty, else the
env flag (kind `env`). -/
def validateAndConfigure (f : Flags) : StartupResult :=
  if f.textFlag = "" ∧ f.envFlag = "" then
    .exitError 127 "Missing -text or -env option!"
  else if f.args.length > 0 then
    .exitError 127 "Too many arguments!"
  else if f.textFlag ≠ "" then
    .configured f.textFlag "text"
  else
    .configured f.envFlag "env"

/-- A concrete transport-layer writer used to instantiate the abstract
interface: it accumulates the chunks written, its `Write` always succeeds
returning `len(b)`, mirroring `net/http`'s writer on the success path. -/
structure BufWriter where
  headers : HeaderMap
  chunks : List String

/-- The `ResponseWriter` dictionary of `BufWriter`. -/
def bufRW : ResponseWriter BufWriter Empty :=
  { header := fun s => (s.headers, s)
    write := fun s b => ({ s with chunks := s.chunks ++ [b] }, b.utf8ByteSize, none)
    writeHeader := fun s _ => s }

/-- Total byte size of a list of written chunks. -/
def chunksBytes (cs : List String) : Nat :=
  cs.foldl (fun n c => n + c.utf8ByteSize) 0

/-- A sample request for witnesses. -/
def req0 : Request :=
  { host := "localhost", remoteAddr := "127.0.0.1:9", method := "GET"
    path := "/", proto := "HTTP/1.1", userAgent := "curl" }

/-- A sample environment for witnesses: only `FOO` is set. -/
def env0 : Env := fun n => if n = "FOO" then some "bar" else none

/-- A fresh recorder over an empty `BufWriter`. -/
def freshMeta : MetaState BufWriter :=
  { writer := { headers := [], chunks := [] }, status := 0, length := 0 }

/-- C1: for a literal configuration with value `v` (kind `text`), the echo
handler run over a fresh recorder forwards exactly one write of
`v ++ "\n"` to the underlying writer, and the recorded status is 200 (the
recorded length being that write's byte size). -/
theorem echo_text_writes_value_newline (v : String) (env : Env)
    (rw : ResponseWriter σ ε) (w : σ) (r : Request) :
    httpEcho v "text" env (metaRW rw) { writer := w, status := 0, length := 0 } r =
      some { writer := (rw.write w (v ++ "\n")).1, status := 200,
             length := (v ++ "\n").utf8ByteSize } := by
  simp [httpEcho, fprintln, metaRW, metaWrite]

/-- C4: the recorder's `Write` sets the recorded status to 200 exactly when
none was recorded yet (otherwise keeps it), replaces the recorded length
with the byte length of `b`, forwards exactly `b` to the underlying
writer, and returns the underlying write's result unchanged. -/
theorem metaWrite_records_and_forwards (rw : ResponseWriter σ ε)
    (w : MetaState σ) (b : String) :
    (metaWrite rw w b).1.status = (if w.status = 0 then 200 else w.status) ∧
    (metaWrite rw w b).1.length = b.utf8ByteSize ∧
    (metaWrite rw w b).1.writer = (rw.write w.writer b).1 ∧
    (metaWrite rw w b).2 = (rw.write w.writer b).2 := by
  refine ⟨rfl, rfl, rfl, rfl⟩

/-- C6: the health handler, run over a fresh recorder, writes exactly the
body consisting of the JSON liveness payload followed by a newline (16
bytes), with recorded status 200, for every request (hence independent of
method and path) and with no dependence on any configured value. -/
theorem health_fixed_body ( _configValue _configKind : String)
    (rw : ResponseWriter σ ε) (w : σ) (r : Request) :
    httpHealth (metaRW rw) { writer := w, status := 0, length := 0 } r =
      some { writer := (rw.write w ("\x7b\"status\":\"ok\"\x7d" ++ "\n")).1,
             status := 200, length := 16 } := by
  simp [httpHealth, fprintln, metaRW, metaWrite]
  decide

/-- C10: the recorder's `Header` returns exactly the header map of the
underlying writer and leaves the recorded status and length unchanged. -/
theorem metaHeader_frame (rw : ResponseWriter σ ε) (w : MetaState σ) :
    (metaHeader rw w).1 = (rw.header w.writer).1 ∧
    (metaHeader rw w).2.status = w.status ∧
    (metaHeader rw w).2.length = w.length := by
  refine ⟨rfl, rfl, rfl⟩

/-- C2: for an environment-name configuration with name `n` (kind `env`),
the echo handler looks `n` up at request time; if set to `val` it forwards
one write of `val ++ "\n"`, if unset it forwards one write of the failure
message embedding `n` followed by a newline, and the recorded status is
200 either way. -/
theorem echo_env_lookup (n : String) (env : Env)
    (rw : ResponseWriter σ ε) (w : σ) (r : Request) :
    (∀ val, env n = some val →
      httpEcho n "env" env (metaRW rw) { writer := w, status := 0, length := 0 } r =
        some { writer := (rw.write w (val ++ "\n")).1, status := 200,
               length := (val ++ "\n").utf8ByteSize }) ∧
    (env n = none →
      httpEcho n "env" env (metaRW rw) { writer := w, status := 0, length := 0 } r =
        some { writer :=
                (rw.write w (("failed resolving env var \x27" ++ n ++ "\x27") ++ "\n")).1,
               status := 200,
               length :=
                (("failed resolving env var \x27" ++ n ++ "\x27") ++ "\n").utf8ByteSize }) := by
  constructor
  · intro val hval
    simp [httpEcho, fprintln, metaRW, metaWrite, hval]
  · intro hnone
    simp [httpEcho, fprintln, metaRW, metaWrite, hnone]

/-- Witness for C2 at the concrete environment `env0`: `FOO` is set to
`bar`; `MISSING` is unset. -/
theorem echo_env_lookup_witness :
    (httpEcho "FOO" "env" env0 (metaRW bufRW) freshMeta req0 =
      some { writer := (bufRW.write freshMeta.writer ("bar" ++ "\n")).1, status := 200,
             length := ("bar" ++ "\n").utf8ByteSize }) ∧
    (httpEcho "MISSING" "env" env0 (metaRW bufRW) freshMeta req0 =
      some { writer :=
              (bufRW.write freshMeta.writer
                (("failed resolving env var \x27" ++ "MISSING" ++ "\x27") ++ "\n")).1,
             status := 200,
             length :=
              (("failed resolving env var \x27" ++ "MISSING" ++ "\x27") ++ "\n").utf8ByteSize }) :=
  ⟨(echo_env_lookup "FOO" env0 bufRW freshMeta.writer req0).1 "bar" rfl,
   (echo_env_lookup "MISSING" env0 bufRW freshMeta.writer req0).2 rfl⟩

/-- C3: the logging wrapper emits exactly one log line per request; the
duration field is non-negative whenever the end timestamp is not before
the start timestamp; and when the inner handler completes normally the one
line rendered carries the request fields together with the recorded status
and recorded length. -/
theorem httpLog_emits_one_line (fmtTime showDur : Int → String)
    (rw : ResponseWriter σ ε) (h : Handler (MetaState σ) ε)
    (startT endT : Int) (w : σ) (r : Request)
    (hmono : startT ≤ endT) :
    (httpLog fmtTime showDur rw h startT endT w r).2.length = 1 ∧
    0 ≤ endT - startT ∧
    (∀ mrw, h (metaRW rw) { writer := w, status := 0, length := 0 } r = some mrw →
      (httpLog fmtTime showDur rw h startT endT w r).2 =
        [renderLogLine fmtTime showDur endT r mrw.status mrw.length (endT - startT)]) := by
  refine ⟨?_, by omega, ?_⟩
  · cases hh : h (metaRW rw) { writer := w, status := 0, length := 0 } r <;>
      simp [httpLog, hh]
  · intro mrw hm
    simp [httpLog, hm]

/-- Witness for C3 at a concrete run of the logged echo handler. -/
theorem httpLog_emits_one_line_witness :
    (httpLog (fun _ => "t") (fun _ => "d") bufRW
        (withAppHeaders (httpEcho "hi" "text" env0)) 0 5
        { headers := [], chunks := [] } req0).2.length = 1 ∧
    (0 : Int) ≤ 5 - 0 ∧
    (∀ mrw, withAppHeaders (httpEcho "hi" "text" env0) (metaRW bufRW)
        { writer := { headers := [], chunks := [] }, status := 0, length := 0 } req0 =
          some mrw →
      (httpLog (fun _ => "t") (fun _ => "d") bufRW
          (withAppHeaders (httpEcho "hi" "text" env0)) 0 5
          { headers := [], chunks := [] } req0).2 =
        [renderLogLine (fun _ => "t") (fun _ => "d") 5 req0 mrw.status mrw.length (5 - 0)]) :=
  httpLog_emits_one_line (fun _ => "t") (fun _ => "d") bufRW
    (withAppHeaders (httpEcho "hi" "text" env0)) 0 5
    { headers := [], chunks := [] } req0 (by decide)

/-- C5: for the echo handler (on either valid kind) and the health handler,
run over a fresh recorder on an empty transport buffer, the recorded
length equals the total byte size of the chunks written to the transport,
i.e. the exact byte length of the full response body. -/
theorem recorded_length_is_body_bytes (v kind : String) (env : Env)
    (hs : HeaderMap) (r : Request)
    (hkind : kind = "text" ∨ kind = "env") :
    (∃ mrw, httpEcho v kind env (metaRW bufRW)
        { writer := { headers := hs, chunks := [] }, status := 0, length := 0 } r =
          some mrw ∧
        mrw.length = chunksBytes mrw.writer.chunks) ∧
    (∃ mrw, httpHealth (metaRW bufRW)
        { writer := { headers := hs, chunks := [] }, status := 0, length := 0 } r =
          some mrw ∧
        mrw.length = chunksBytes mrw.writer.chunks) := by
  constructor
  · rcases hkind with hk | hk <;> subst hk
    · exact ⟨_, rfl, by simp [httpEcho, fprintln, metaRW, metaWrite, bufRW, chunksBytes]⟩
    · cases henv : env v with
      | none =>
        refine ⟨{ writer :=
                    { headers := hs,
                      chunks := [("failed resolving env var \x27" ++ v ++ "\x27") ++ "\n"] },
                  status := 200,
                  length :=
                    (("failed resolving env var \x27" ++ v ++ "\x27") ++ "\n").utf8ByteSize },
            ?_, ?_⟩
        · simp [httpEcho, fprintln, henv, metaRW, metaWrite, bufRW]
        · simp [chunksBytes]
      | some val =>
        refine ⟨{ writer := { headers := hs, chunks := [val ++ "\n"] }, status := 200,
                  length := (val ++ "\n").utf8ByteSize }, ?_, ?_⟩
        · simp [httpEcho, fprintln, henv, metaRW, metaWrite, bufRW]
        · simp [chunksBytes]
  · exact ⟨_, rfl, by simp [httpHealth, fprintln, metaRW, metaWrite, bufRW, chunksBytes]⟩

/-- Witness for C5: echoing the literal `hi` records length 3, the byte
size of the body written. -/
theorem recorded_length_is_body_bytes_witness :
    (∃ mrw, httpEcho "hi" "text" env0 (metaRW bufRW)
        { writer := { headers := [], chunks := [] }, status := 0, length := 0 } req0 =
          some mrw ∧
        mrw.length = chunksBytes mrw.writer.chunks) :=
  (recorded_length_is_body_bytes "hi" "text" env0 [] req0 (Or.inl rfl)).1

/-- Counterexample to C7 as stated: with both flags non-empty (so not
"exactly one" non-empty) and no extra arguments, startup validation does
not exit with 127; it configures the server with the text value. -/
theorem validate_both_flags_counterexample :
    validateAndConfigure { textFlag := "hello", envFlag := "HOME", args := [] } =
      .configured "hello" "text" ∧
    "hello" ≠ "" ∧ "HOME" ≠ "" ∧
    validateAndConfigure { textFlag := "hello", envFlag := "HOME", args := [] } ≠
      .exitError 127 "Missing -text or -env option!" ∧
    validateAndConfigure { textFlag := "hello", envFlag := "HOME", args := [] } ≠
      .exitError 127 "Too many arguments!" := by
  refine ⟨by decide, by decide, by decide, by decide, by decide⟩

/-- C7 amended: startup validation exits with code 127 (with a message to
the error stream) exactly when both flags are empty or an extra positional
argument was supplied; whenever neither failure condition holds the
startup proceeds to a configured server. -/
theorem validate_exit127_iff (f : Flags) :
    ((∃ msg, validateAndConfigure f = .exitError 127 msg) ↔
      ((f.textFlag = "" ∧ f.envFlag = "") ∨ f.args ≠ [])) ∧
    (¬ ((f.textFlag = "" ∧ f.envFlag = "") ∨ f.args ≠ []) →
      ∃ val kind, validateAndConfigure f = .configured val kind) := by
  unfold validateAndConfigure
  by_cases h1 : f.textFlag = "" ∧ f.envFlag = ""
  · simp [h1]
  · by_cases h2 : f.args = []
    · by_cases h3 : f.textFlag = ""
      · have h4 : ¬ f.envFlag = "" := fun he => h1 ⟨h3, he⟩
        simp [h1, h2, h3, h4]
      · simp [h1, h2, h3]
    · have hlen : 0 < f.args.length := List.length_pos.mpr h2
      simp [h1, h2, hlen]

/-- Witness for C7 (amended): a valid configuration reaches the configured
branch. -/
theorem validate_exit127_iff_witness :
    ∃ val kind,
      validateAndConfigure { textFlag := "hi", envFlag := "", args := [] } =
        .configured val kind :=
  (validate_exit127_iff { textFlag := "hi", envFlag := "", args := [] }).2 (by decide)

/-- C8: the echo handler panics (returns `none`, writing nothing) for every
kind other than `text` and `env`; and for every kind produced by a
successful startup validation the handler does not reach that branch. -/
theorem echo_unknown_kind_panics (env : Env) (rw : ResponseWriter σ ε)
    (w : σ) (r : Request) :
    (∀ v kind, kind ≠ "text" → kind ≠ "env" →
      httpEcho v kind env rw w r = none) ∧
    (∀ f val kind, validateAndConfigure f = .configured val kind →
      httpEcho val kind env rw w r ≠ none) := by
  constructor
  · intro v kind h1 h2
    simp [httpEcho, h1, h2]
  · intro f val kind hconf
    have hk : kind = "text" ∨ kind = "env" := by
      unfold validateAndConfigure at hconf
      split at hconf
      · simp at hconf
      · split at hconf
        · simp at hconf
        · split at hconf
          · simp at hconf
            exact Or.inl hconf.2.symm
          · simp at hconf
            exact Or.inr hconf.2.symm
    rcases hk with hk | hk <;> subst hk
    · simp [httpEcho, fprintln]
    · cases henv : env val <;> simp [httpEcho, fprintln, henv]

/-- Witness for C8: the kind `bogus` makes the echo handler panic. -/
theorem echo_unknown_kind_panics_witness :
    httpEcho "v" "bogus" env0 bufRW { headers := [], chunks := [] } req0 = none :=
  (echo_unknown_kind_panics env0 bufRW { headers := [], chunks := [] } req0).1
    "v" "bogus" (by decide) (by decide)

/-- C9: when both flags are non-empty (and no extra positional arguments
are present), startup validation succeeds and configures the server with
the text value and kind `text`: the literal text takes precedence. -/
theorem both_flags_prefer_text (t e : String) (ht : t ≠ "") (he : e ≠ "") :
    validateAndConfigure { textFlag := t, envFlag := e, args := [] } =
      .configured t "text" := by
  simp [validateAndConfigure, ht, he]

/-- Witness for C9 at concrete flag values. -/
theorem both_flags_prefer_text_witness :
    validateAndConfigure { textFlag := "a", envFlag := "b", args := [] } =
      .configured "a" "text" :=
  both_flags_prefer_text "a" "b" (by decide) (by decide)
